import Mathlib

/-!
Shallow embedding of the win-lookaside crate (src/lib.rs): an allocator for
the Windows kernel backed by OS lookaside lists.

The OS entry points (ExInitializeLookasideListEx, ExDeleteLookasideListEx,
ExAllocateFromLookasideListEx, ExFreeToLookasideListEx) are external FFI
collaborators.  They are modelled by an oracle structure `Os` giving each
call's effect on the opaque handle, and every operation of the embedding
additionally returns the list of OS calls it forwarded (`List OsEvent`), so
that properties about which calls reach the OS facility are statable.
Pointers are modelled as natural numbers with 0 playing the null pointer.
A Rust panic is modelled by the `AllocOutcome.panicked` marker (the
operation returns that marker and forwards no OS call).
-/

namespace WinLookaside

/-- The windows-sys success status code (NTSTATUS is an i32; modelled as Int). -/
def STATUS_SUCCESS : Int := 0

/-- Newtype over the NTSTATUS i32 completion code (src/lib.rs 186-188). -/
structure NtStatus where
  val : Int
deriving DecidableEq

/-- Embeds NtStatus::is_ok (src/lib.rs 192-194): true iff the code equals STATUS_SUCCESS. -/
def NtStatus.is_ok (s : NtStatus) : Bool := s.val == STATUS_SUCCESS

/-- Embeds NtStatus::is_err (src/lib.rs 197-199): true iff the code differs from STATUS_SUCCESS. -/
def NtStatus.is_err (s : NtStatus) : Bool := s.val != STATUS_SUCCESS

/-- Embeds DEFAULT_POOL_TAG (src/lib.rs 156): u32 from the native-endian bytes of
the ASCII string srLL; on the little-endian Windows targets this is 0x4C4C7273. -/
def DEFAULT_POOL_TAG : Nat := 0x4C4C7273

/-- Opaque allocate callback pointer (src/lib.rs 170-177): an optional function
pointer, modelled as an optional opaque identifier. -/
abbrev AllocateFunctionEx := Option Nat

/-- Opaque free callback pointer (src/lib.rs 182-183). -/
abbrev FreeFunctionEx := Option Nat

/-- Embeds LookasideList (src/lib.rs 206-209): the wrapper over the OS's
_LOOKASIDE_LIST_EX record, an opaque 0x60-byte region. -/
structure LookasideList where
  general_lookaside_pool : List Nat
deriving DecidableEq

/-- Embeds LookasideList::init (src/lib.rs 212-216): a zero-filled region. -/
def LookasideList.init : LookasideList :=
  { general_lookaside_pool := List.replicate 0x60 0 }

/-- The argument record forwarded to ExInitializeLookasideListEx
(parameter order as declared at src/lib.rs 230-239). -/
structure InitArgs where
  alloc_fn : AllocateFunctionEx
  free_fn : FreeFunctionEx
  pool_type : Int
  flags : Nat
  size : Nat
  tag : Nat
  depth : Nat
deriving DecidableEq

/-- One call forwarded across the FFI boundary to the OS facility. -/
inductive OsEvent where
  | initList (args : InitArgs)
  | deleteList
  | allocEntry
  | freeEntry (ptr : Nat)
deriving DecidableEq

/-- Oracle for the OS lookaside facility: the observable effect of each of the
four extern calls (src/lib.rs 227-247).  ExInitializeLookasideListEx returns a
status and rewrites the handle in place; ExAllocateFromLookasideListEx returns
a pointer (0 = null) and may update internal bookkeeping; the other two only
update the handle. -/
structure Os where
  initListFn : InitArgs → LookasideList → NtStatus × LookasideList
  deleteListFn : LookasideList → LookasideList
  allocEntryFn : LookasideList → Nat × LookasideList
  freeEntryFn : Nat → LookasideList → LookasideList

/-- Embeds LookasideAlloc (src/lib.rs 250-253): the initialized flag and the
owned handle.  The spin::Mutex and RefCell wrappers serialize access in Rust;
in this sequential embedding each operation acts atomically on the state. -/
structure LookasideAlloc where
  init : Bool
  lookaside : LookasideList
deriving DecidableEq

/-- Embeds LookasideAlloc::default (src/lib.rs 276-281): flag false, zero-filled
handle, no OS interaction (the constructor takes no oracle and forwards nothing). -/
def LookasideAlloc.default : LookasideAlloc :=
  { init := false, lookaside := LookasideList.init }

/-- Embeds LookasideError (src/lib.rs 159-161). -/
inductive LookasideError where
  | InitError (status : NtStatus)
deriving DecidableEq

/-- Embeds LookasideResult (src/lib.rs 164). -/
abbrev LookasideResult (T : Type) := Except LookasideError T

/-- The argument record built inside LookasideAlloc::init (src/lib.rs 295-304):
flags defaults to 0, tag defaults to DEFAULT_POOL_TAG, depth is the literal 0;
size, pool_type and both callbacks pass through unchanged. -/
def mkInitArgs (size : Nat) (pool_type : Int) (tag : Option Nat) (flags : Option Nat)
    (alloc_fn : AllocateFunctionEx) (free_fn : FreeFunctionEx) : InitArgs :=
  { alloc_fn := alloc_fn, free_fn := free_fn, pool_type := pool_type,
    flags := flags.getD 0, size := size, tag := tag.getD DEFAULT_POOL_TAG, depth := 0 }

/-- Embeds LookasideAlloc::init (src/lib.rs 284-313).  Named initOp because the
structure field init already takes the name.  Takes the lock, forwards
ExInitializeLookasideListEx on the in-place handle (no check of the flag),
and on error returns the wrapped status without touching the flag; on success
stores true into the flag and returns Ok(()). -/
def LookasideAlloc.initOp (os : Os) (st : LookasideAlloc) (size : Nat) (pool_type : Int)
    (tag : Option Nat) (flags : Option Nat)
    (alloc_fn : AllocateFunctionEx) (free_fn : FreeFunctionEx) :
    LookasideResult Unit × LookasideAlloc × List OsEvent :=
  let args := mkInitArgs size pool_type tag flags alloc_fn free_fn
  let call := os.initListFn args st.lookaside
  let status := call.1
  let st1 : LookasideAlloc := { st with lookaside := call.2 }
  if status.is_err then
    (Except.error (LookasideError.InitError status), st1, [OsEvent.initList args])
  else
    (Except.ok (), { st1 with init := true }, [OsEvent.initList args])

/-- Status returned by the forwarded ExInitializeLookasideListEx call for the
given oracle, state and arguments; abbreviation used to state theorems. -/
def initStatus (os : Os) (st : LookasideAlloc) (size : Nat) (pool_type : Int)
    (tag : Option Nat) (flags : Option Nat)
    (alloc_fn : AllocateFunctionEx) (free_fn : FreeFunctionEx) : NtStatus :=
  (os.initListFn (mkInitArgs size pool_type tag flags alloc_fn free_fn) st.lookaside).1

/-- Embeds LookasideAlloc::destroy (src/lib.rs 316-323).  Takes the lock; if the
flag reads true it forwards ExDeleteLookasideListEx on the handle.  Note: the
source never stores false into the flag, so the flag keeps its value. -/
def LookasideAlloc.destroy (os : Os) (st : LookasideAlloc) : LookasideAlloc × List OsEvent :=
  if st.init then
    ({ st with lookaside := os.deleteListFn st.lookaside }, [OsEvent.deleteList])
  else
    (st, [])

/-- Embeds the Drop implementation (src/lib.rs 261-265): dropping calls destroy. -/
def LookasideAlloc.drop (os : Os) (st : LookasideAlloc) : LookasideAlloc × List OsEvent :=
  st.destroy os

/-- Embeds LookasideAlloc::alloc (src/lib.rs 327-330): takes the lock and
forwards ExAllocateFromLookasideListEx, returning the raw pointer (0 = null). -/
def LookasideAlloc.alloc (os : Os) (st : LookasideAlloc) : Nat × LookasideAlloc × List OsEvent :=
  let call := os.allocEntryFn st.lookaside
  (call.1, { st with lookaside := call.2 }, [OsEvent.allocEntry])

/-- Embeds LookasideAlloc::free (src/lib.rs 333-336): takes the lock and
forwards ExFreeToLookasideListEx with the given pointer. -/
def LookasideAlloc.free (os : Os) (st : LookasideAlloc) (ptr : Nat) :
    LookasideAlloc × List OsEvent :=
  ({ st with lookaside := os.freeEntryFn ptr st.lookaside }, [OsEvent.freeEntry ptr])

/-- Layout of an allocation request (core::alloc::Layout): size and alignment. -/
structure Layout where
  size : Nat
  align : Nat
deriving DecidableEq

/-- A returned memory block, NonNull of a byte slice: base pointer and reported
length. -/
structure MemBlock where
  ptr : Nat
  len : Nat
deriving DecidableEq

/-- Outcome of an Allocator-trait method: a block, an AllocError, or a Rust
panic (modelled as the panicked marker carrying the panic message). -/
inductive AllocOutcome where
  | ok (block : MemBlock)
  | allocErr
  | panicked (msg : String)
deriving DecidableEq

/-- Embeds Allocator::allocate for LookasideAlloc (src/lib.rs 340-349): calls
alloc; if the pointer is null returns Err(AllocError), otherwise returns the
block made of that pointer with length layout.size(). -/
def LookasideAlloc.allocate (os : Os) (st : LookasideAlloc) (layout : Layout) :
    AllocOutcome × LookasideAlloc × List OsEvent :=
  let call := st.alloc os
  let pool := call.1
  if pool = 0 then
    (AllocOutcome.allocErr, call.2.1, call.2.2)
  else
    (AllocOutcome.ok { ptr := pool, len := layout.size }, call.2.1, call.2.2)

/-- Embeds Allocator::deallocate for LookasideAlloc (src/lib.rs 351-353):
delegates to free; the layout argument is ignored. -/
def LookasideAlloc.deallocate (os : Os) (st : LookasideAlloc) (ptr : Nat)
    (_layout : Layout) : LookasideAlloc × List OsEvent :=
  st.free os ptr

/-- Embeds Allocator::grow for LookasideAlloc (src/lib.rs 356-363): always
panics with the message Not supported; no OS call, no state change. -/
def LookasideAlloc.grow (_os : Os) (st : LookasideAlloc) (_ptr : Nat)
    (_old_layout _new_layout : Layout) : AllocOutcome × LookasideAlloc × List OsEvent :=
  (AllocOutcome.panicked "Not supported", st, [])

/-- Embeds Allocator::grow_zeroed for LookasideAlloc (src/lib.rs 366-373):
always panics with the message Not supported; no OS call, no state change. -/
def LookasideAlloc.grow_zeroed (_os : Os) (st : LookasideAlloc) (_ptr : Nat)
    (_old_layout _new_layout : Layout) : AllocOutcome × LookasideAlloc × List OsEvent :=
  (AllocOutcome.panicked "Not supported", st, [])

/-- Embeds Allocator::shrink for LookasideAlloc (src/lib.rs 376-383): always
panics with the message Not supported; no OS call, no state change. -/
def LookasideAlloc.shrink (_os : Os) (st : LookasideAlloc) (_ptr : Nat)
    (_old_layout _new_layout : Layout) : AllocOutcome × LookasideAlloc × List OsEvent :=
  (AllocOutcome.panicked "Not supported", st, [])

/-- Concrete oracle on which every OS call succeeds: initialization returns
STATUS_SUCCESS, allocation returns the non-null pointer 1, the handle is left
unchanged.  Used for concrete evaluations. -/
def osId : Os :=
  { initListFn := fun _ l => (⟨0⟩, l),
    deleteListFn := fun l => l,
    allocEntryFn := fun l => (1, l),
    freeEntryFn := fun _ l => l }

/-- Concrete oracle whose allocation call reports exhaustion (returns the null
pointer 0). -/
def osNull : Os :=
  { initListFn := fun _ l => (⟨0⟩, l),
    deleteListFn := fun l => l,
    allocEntryFn := fun l => (0, l),
    freeEntryFn := fun _ l => l }

/-- Concrete oracle whose initialization call fails with the nonzero status
0xC000009A (STATUS_INSUFFICIENT_RESOURCES as an i32). -/
def osFail : Os :=
  { initListFn := fun _ l => (⟨-1073741670⟩, l),
    deleteListFn := fun l => l,
    allocEntryFn := fun l => (1, l),
    freeEntryFn := fun _ l => l }

/-- Claim C8: default construction yields the quiescent state: the initialized
flag is false and the owned handle is a zero-filled 0x60-byte region; the
constructor takes no OS oracle, so it performs no OS interaction. -/
theorem default_is_quiescent :
    LookasideAlloc.default.init = false ∧
    LookasideAlloc.default.lookaside.general_lookaside_pool = List.replicate 0x60 0 ∧
    LookasideAlloc.default.lookaside.general_lookaside_pool.length = 0x60 :=
  ⟨rfl, rfl, rfl⟩

/-- Claim C4: for every oracle, instance state (initialized or not), pointer and
layouts, each of grow, grow_zeroed and shrink returns the fatal panic marker
(message Not supported), never a block or an AllocError, and forwards no OS
call (in particular no allocate-copy-free fallback) and leaves the state
unchanged. -/
theorem resize_ops_always_fatal (os : Os) (st : LookasideAlloc) (ptr : Nat)
    (old_layout new_layout : Layout) :
    (st.grow os ptr old_layout new_layout).1 = AllocOutcome.panicked "Not supported" ∧
    (st.grow_zeroed os ptr old_layout new_layout).1 = AllocOutcome.panicked "Not supported" ∧
    (st.shrink os ptr old_layout new_layout).1 = AllocOutcome.panicked "Not supported" ∧
    (st.grow os ptr old_layout new_layout).2 = (st, []) ∧
    (st.grow_zeroed os ptr old_layout new_layout).2 = (st, []) ∧
    (st.shrink os ptr old_layout new_layout).2 = (st, []) :=
  ⟨rfl, rfl, rfl, rfl, rfl, rfl⟩

/-- Claim C6: every call to init forwards to ExInitializeLookasideListEx exactly
the arguments: tag defaulted to DEFAULT_POOL_TAG when None, flags defaulted to
0 when None, depth the literal 0, and size, pool_type and both callbacks
unchanged (Option.getD gives the given value when Some and the default when
None). -/
theorem init_forwards_defaulted_args (os : Os) (st : LookasideAlloc) (size : Nat)
    (pool_type : Int) (tag flags : Option Nat)
    (alloc_fn : AllocateFunctionEx) (free_fn : FreeFunctionEx) :
    (st.initOp os size pool_type tag flags alloc_fn free_fn).2.2 =
      [OsEvent.initList
        { alloc_fn := alloc_fn, free_fn := free_fn, pool_type := pool_type,
          flags := flags.getD 0, size := size, tag := tag.getD DEFAULT_POOL_TAG,
          depth := 0 }] := by
  unfold LookasideAlloc.initOp mkInitArgs
  by_cases hc :
      (os.initListFn
        { alloc_fn := alloc_fn, free_fn := free_fn, pool_type := pool_type,
          flags := flags.getD 0, size := size, tag := tag.getD DEFAULT_POOL_TAG,
          depth := 0 } st.lookaside).1.is_err = true <;>
    simp [hc]

/-- Claim C1 (evaluation at the failing input): starting from the state reached
by a successful init, destroy forwards exactly one ExDeleteLookasideListEx
call, but the initialized flag is still true when destroy returns (the source
never stores false into it), contradicting the claim that the instance is back
in the Uninitialized state. -/
theorem destroy_leaves_flag_set :
    (((LookasideAlloc.default.initOp osId 4 0 none none none none).2.1.destroy osId).2
      = [OsEvent.deleteList]) ∧
    (((LookasideAlloc.default.initOp osId 4 0 none none none none).2.1.destroy osId).1.init
      = true) :=
  ⟨rfl, rfl⟩

/-- Claim C2 (evaluation at the failing input): after a successful init, a first
destroy forwards a teardown call, and because the flag is never cleared a
second destroy forwards a second ExDeleteLookasideListEx call, contradicting
idempotence; on a never-initialized instance destroy forwards nothing (that
part of the claim holds). -/
theorem destroy_twice_forwards_two_teardowns :
    ((((LookasideAlloc.default.initOp osId 4 0 none none none none).2.1.destroy
        osId).1.destroy osId).2 = [OsEvent.deleteList]) ∧
    ((LookasideAlloc.default.destroy osId).2 = ([] : List OsEvent)) :=
  ⟨rfl, rfl⟩

/-- Claim C3: for a call to init on an Uninitialized instance, if the forwarded
OS call returns the success status then init stores true into the flag and
returns Ok(()); if it returns any other status then init leaves the flag false
and returns Err(InitError) carrying exactly that wrapped status. -/
theorem init_state_transitions (os : Os) (st : LookasideAlloc) (size : Nat)
    (pool_type : Int) (tag flags : Option Nat)
    (alloc_fn : AllocateFunctionEx) (free_fn : FreeFunctionEx)
    (h : st.init = false) :
    ((initStatus os st size pool_type tag flags alloc_fn free_fn).is_ok = true →
      (st.initOp os size pool_type tag flags alloc_fn free_fn).1 = Except.ok () ∧
      (st.initOp os size pool_type tag flags alloc_fn free_fn).2.1.init = true) ∧
    ((initStatus os st size pool_type tag flags alloc_fn free_fn).is_ok = false →
      (st.initOp os size pool_type tag flags alloc_fn free_fn).1 =
        Except.error (LookasideError.InitError
          (initStatus os st size pool_type tag flags alloc_fn free_fn)) ∧
      (st.initOp os size pool_type tag flags alloc_fn free_fn).2.1.init = false) := by
  unfold initStatus LookasideAlloc.initOp
  by_cases hv : (os.initListFn (mkInitArgs size pool_type tag flags alloc_fn free_fn)
      st.lookaside).1.val = STATUS_SUCCESS
  · constructor
    · intro _
      simp [NtStatus.is_err, hv]
    · intro hok
      simp [NtStatus.is_ok, hv] at hok
  · constructor
    · intro hok
      simp [NtStatus.is_ok, hv] at hok
    · intro _
      simp [NtStatus.is_err, hv, h]

/-- Witness for C3: on the all-success oracle, init from the default state
returns Ok(()) and the flag becomes true. -/
theorem init_state_transitions_witness :
    (LookasideAlloc.default.initOp osId 4 0 none none none none).1 = Except.ok () ∧
    (LookasideAlloc.default.initOp osId 4 0 none none none none).2.1.init = true :=
  (init_state_transitions osId LookasideAlloc.default 4 0 none none none none rfl).1 rfl

/-- Claim C5: allocate fails with AllocError exactly when the pointer returned
by the underlying alloc (the forwarded ExAllocateFromLookasideListEx call) is
null; any returned block has a non-null pointer; allocate never panics (no
abort, no out-of-memory handler) and forwards exactly the one allocation
call. -/
theorem allocate_err_iff_null_ptr (os : Os) (st : LookasideAlloc) (layout : Layout) :
    ((st.allocate os layout).1 = AllocOutcome.allocErr ↔
      (os.allocEntryFn st.lookaside).1 = 0) ∧
    (∀ b : MemBlock, (st.allocate os layout).1 = AllocOutcome.ok b → b.ptr ≠ 0) ∧
    (∀ msg : String, (st.allocate os layout).1 ≠ AllocOutcome.panicked msg) ∧
    (st.allocate os layout).2.2 = [OsEvent.allocEntry] := by
  unfold LookasideAlloc.allocate LookasideAlloc.alloc
  by_cases hp : (os.allocEntryFn st.lookaside).1 = 0
  · simp [hp]
  · simp [hp]

/-- Witness for C5: on the exhausted oracle (null pointer returned), allocate
returns the AllocError outcome. -/
theorem allocate_err_iff_null_ptr_witness :
    (LookasideAlloc.default.allocate osNull { size := 4, align := 4 }).1 =
      AllocOutcome.allocErr :=
  (allocate_err_iff_null_ptr osNull LookasideAlloc.default
    { size := 4, align := 4 }).1.mpr rfl

/-- Claim C7: whenever allocate succeeds, the returned block's reported length
is the requested layout's size.  The theorem quantifies over every state, so
the length is independent of whatever block size was given at init time (the
state does not even record it, and no size check is performed). -/
theorem allocate_block_len_eq_layout_size (os : Os) (st : LookasideAlloc)
    (layout : Layout) (b : MemBlock)
    (h : (st.allocate os layout).1 = AllocOutcome.ok b) :
    b.len = layout.size := by
  unfold LookasideAlloc.allocate LookasideAlloc.alloc at h
  by_cases hp : (os.allocEntryFn st.lookaside).1 = 0
  · simp [hp] at h
  · simp [hp] at h
    rw [← h]

/-- Witness for C7: on the all-success oracle with a layout of size 4, allocate
returns the block with pointer 1 and length 4. -/
theorem allocate_block_len_witness :
    ((LookasideAlloc.default.allocate osId { size := 4, align := 4 }).1 =
      AllocOutcome.ok { ptr := 1, len := 4 }) ∧
    MemBlock.len { ptr := 1, len := 4 } = 4 :=
  ⟨rfl, allocate_block_len_eq_layout_size osId LookasideAlloc.default
    { size := 4, align := 4 } { ptr := 1, len := 4 } rfl⟩

/-- Claim C9: init never checks the initialized flag: for every instance,
already initialized or not, the OS initialization call is forwarded on the
in-place handle; and whenever the OS call fails, the flag is left unchanged at
its prior value (so a failed init on an already-initialized instance leaves it
true). -/
theorem init_unguarded_and_flag_frame (os : Os) (st : LookasideAlloc) (size : Nat)
    (pool_type : Int) (tag flags : Option Nat)
    (alloc_fn : AllocateFunctionEx) (free_fn : FreeFunctionEx) :
    ((st.initOp os size pool_type tag flags alloc_fn free_fn).2.2 =
      [OsEvent.initList (mkInitArgs size pool_type tag flags alloc_fn free_fn)]) ∧
    ((initStatus os st size pool_type tag flags alloc_fn free_fn).is_ok = false →
      (st.initOp os size pool_type tag flags alloc_fn free_fn).2.1.init = st.init) := by
  unfold initStatus LookasideAlloc.initOp
  by_cases hv : (os.initListFn (mkInitArgs size pool_type tag flags alloc_fn free_fn)
      st.lookaside).1.val = STATUS_SUCCESS
  · constructor
    · simp [NtStatus.is_err, hv]
    · intro hok
      simp [NtStatus.is_ok, hv] at hok
  · constructor
    · simp [NtStatus.is_err, hv]
    · intro _
      simp [NtStatus.is_err, hv]

/-- Witness for C9: on an already-initialized instance with the failing oracle,
init still forwards the OS initialization call and the flag stays true. -/
theorem init_unguarded_witness :
    (((⟨true, LookasideList.init⟩ : LookasideAlloc).initOp osFail 4 0 none none
        none none).2.2 = [OsEvent.initList (mkInitArgs 4 0 none none none none)]) ∧
    (((⟨true, LookasideList.init⟩ : LookasideAlloc).initOp osFail 4 0 none none
        none none).2.1.init = true) :=
  ⟨(init_unguarded_and_flag_frame osFail ⟨true, LookasideList.init⟩ 4 0 none none
      none none).1,
   (init_unguarded_and_flag_frame osFail ⟨true, LookasideList.init⟩ 4 0 none none
      none none).2 rfl⟩

end WinLookaside
